import Mathlib

/-!
Shallow embedding of `src/helpers/catalog.js` (poster resolution pipeline and
metadata assembly) together with theorems checking the module's specification.

External collaborators (the poster cache, the cloud poster store, the HTTP
client, the fanart logo service, the TMDB client and the genres database
table) live outside this file's source; their responses are modelled as an
explicit environment of response functions, and the observable interactions
of the embedded code with them are recorded as an effect trace.
-/

namespace Catalog

/-- JS truthiness of an optional string value: `null`/`undefined` and the
empty string are falsy, every other string is truthy. -/
def jsTruthyStr (o : Option String) : Bool :=
  match o with
  | none => false
  | some s => s != ""

/-- JS `s.split("-")[0]`: the prefix of `s` before the first `-`
(the whole string when there is no dash, `""` for the empty string). -/
def firstSegment (s : String) : String :=
  String.mk (s.toList.takeWhile (fun c => c != '-'))

/-- JS `Number.prototype.toFixed(1)` on a rational number: round to one
decimal place, ties toward positive infinity, rendered with exactly one
digit after the decimal point. -/
def jsToFixed1 (q : ℚ) : String :=
  let n : Int := ⌊q * 10 + 1 / 2⌋
  let s := toString (n.natAbs / 10) ++ "." ++ toString (n.natAbs % 10)
  if n < 0 then "-" ++ s else s

/-- catalog.js line 88: `content.vote_average ? parseFloat(content.vote_average).toFixed(1) : 'NR'`.
A vote average of `0` is falsy in JS, so it yields the `'NR'` marker. -/
def formatRating (va : Option ℚ) : String :=
  match va with
  | some v => if v = 0 then "NR" else jsToFixed1 v
  | none => "NR"

/-- catalog.js line 187: `content.vote_average ? parseFloat(content.vote_average).toFixed(1) : null`. -/
def jsImdbRating (va : Option ℚ) : Option String :=
  match va with
  | some v => if v = 0 then none else some (jsToFixed1 v)
  | none => none

/-- JS `Array.prototype.filter(Boolean)` step for an optional string:
keeps the value exactly when it is truthy. -/
def jsFilterBoolean (o : Option String) : Option String :=
  if jsTruthyStr o then o else none

/-- A raw catalog item as consumed by catalog.js (fields used by the module). -/
structure Content where
  id : Int
  poster_path : Option String := none
  vote_average : Option ℚ := none
  title : Option String := none
  name : Option String := none
  overview : String := ""
  backdrop_path : Option String := none
  release_date : Option String := none
  first_air_date : Option String := none
  genre_ids : Option (List Int) := none
deriving DecidableEq

/-- Response body of the render-service call `POST /cache-rated-poster`. -/
structure RenderResponse where
  success : Bool
  url : Option String
deriving DecidableEq

/-- An observable interaction of catalog.js with its collaborators. -/
inductive Effect where
  | cacheGet (key : String)
  | cacheSet (key url : String)
  | headProbe (url : String)
  | cloudGet (key : String)
  | renderPost (posterUrl rating contentId : String)
deriving DecidableEq

/-- Whether an effect is the render-creation call. -/
def Effect.isRenderPost : Effect → Bool
  | .renderPost _ _ _ => true
  | _ => false

/-- Whether an effect is the paid-service existence probe. -/
def Effect.isHeadProbe : Effect → Bool
  | .headProbe _ => true
  | _ => false

/-- Modelled from the spec: the collaborators of catalog.js whose code is not
part of this module (`helpers/cache`, `services/cloud-storage`, the axios HTTP
client, `api/fanart`, `api/tmdb` and the `genres` database table). Each field
gives the deterministic response of one collaborator call; `Except.error`
models a rejected promise. Per spec §6 the fanart logo service returns a URL
or null (failures degrade to null), the poster cache is `get/set`, the cloud
poster store is `getExistingUrl/createRatedPoster`, and the genres table reply
is a row or no row (a rejection models a query error). -/
structure Env where
  cache : String → Option String
  headStatus : String → Except String Nat
  cloudGet : String → Except String (Option String)
  renderPost : String → String → String → Except String RenderResponse
  fanart : Int → String → String → Option String
  externalIds : String → Int → Except String (Option String)
  genreName : Int → String → String → Except String (Option String)

/-- The base paid-service poster URL of `getRpdbPoster`
(local `baseUrl` of catalog.js line 55). -/
def rpdbPosterBase (type : String) (id : Int) (rpdbkey : String) : String :=
  "https://api.ratingposterdb.com/" ++ rpdbkey ++ "/tmdb/poster-default/" ++
    type ++ "-" ++ toString id ++ ".jpg?fallback=true"

/-- catalog.js `getRpdbPoster(type, id, language, rpdbkey)`. -/
def getRpdbPoster (type : String) (id : Int) (language : String) (rpdbkey : String) : String :=
  let tier := firstSegment rpdbkey
  let lang := firstSegment language
  let baseUrl := rpdbPosterBase type id rpdbkey
  if tier == "t0" || tier == "t1" then baseUrl else baseUrl ++ "&lang=" ++ lang

/-- catalog.js line 85: the raw TMDB fallback URL (local `tmdbFallbackUrl`). -/
def tmdbFallbackUrl (content : Content) : String :=
  "https://image.tmdb.org/t/p/w500" ++ content.poster_path.getD ""

/-- catalog.js line 89: the cloud poster key (local `contentId`),
`` `${content.id}-${rating}` `` with the rating formatted by line 88. -/
def cloudContentId (content : Content) : String :=
  toString content.id ++ "-" ++ formatRating content.vote_average

/-- catalog.js lines 84-120 of `getPosterUrl`: the TMDB fallback section —
cloud poster store lookup, render-creation call, and the raw fallback URL.
Returns the resolved URL together with the effects this section performs. -/
def posterFallback (env : Env) (content : Content) : Option String × List Effect :=
  match env.cloudGet (cloudContentId content) with
  | Except.error _ => (some (tmdbFallbackUrl content), [Effect.cloudGet (cloudContentId content)])
  | Except.ok cloudUrl =>
    if jsTruthyStr cloudUrl then
      (cloudUrl, [Effect.cloudGet (cloudContentId content)])
    else
      match env.renderPost (tmdbFallbackUrl content) (formatRating content.vote_average)
          (cloudContentId content) with
      | Except.error _ =>
        (some (tmdbFallbackUrl content),
          [Effect.cloudGet (cloudContentId content),
            Effect.renderPost (tmdbFallbackUrl content) (formatRating content.vote_average)
              (cloudContentId content)])
      | Except.ok resp =>
        if resp.success && jsTruthyStr resp.url then
          (resp.url,
            [Effect.cloudGet (cloudContentId content),
              Effect.renderPost (tmdbFallbackUrl content) (formatRating content.vote_average)
                (cloudContentId content)])
        else
          (some (tmdbFallbackUrl content),
            [Effect.cloudGet (cloudContentId content),
              Effect.renderPost (tmdbFallbackUrl content) (formatRating content.vote_average)
                (cloudContentId content)])

/-- catalog.js line 64: the poster cache key (local `posterId`),
`` `poster:${content.id}` ``. -/
def posterCacheId (content : Content) : String :=
  "poster:" ++ toString content.id

/-- catalog.js `getPosterUrl(content, catalogType, language, rpdbApiKey)`.
Returns the resolved poster URL (`none` for JS `null`), the list of
collaborator effects performed, and the poster cache state after the call. -/
def getPosterUrl (env : Env) (content : Content) (catalogType language : String)
    (rpdbApiKey : Option String) :
    Option String × List Effect × (String → Option String) :=
  if jsTruthyStr content.poster_path = false then (none, [], env.cache)
  else if jsTruthyStr rpdbApiKey then
    match env.cache (posterCacheId content) with
    | some cached => (some cached, [Effect.cacheGet (posterCacheId content)], env.cache)
    | none =>
      match env.headStatus
          (getRpdbPoster catalogType content.id language (rpdbApiKey.getD "")) with
      | Except.ok 200 =>
        (some (getRpdbPoster catalogType content.id language (rpdbApiKey.getD "")),
          [Effect.cacheGet (posterCacheId content),
            Effect.headProbe (getRpdbPoster catalogType content.id language (rpdbApiKey.getD "")),
            Effect.cacheSet (posterCacheId content)
              (getRpdbPoster catalogType content.id language (rpdbApiKey.getD ""))],
          fun k => if k = posterCacheId content then
            some (getRpdbPoster catalogType content.id language (rpdbApiKey.getD ""))
          else env.cache k)
      | _ =>
        ((posterFallback env content).1,
          [Effect.cacheGet (posterCacheId content),
            Effect.headProbe (getRpdbPoster catalogType content.id language (rpdbApiKey.getD ""))] ++
            (posterFallback env content).2,
          env.cache)
  else
    ((posterFallback env content).1, (posterFallback env content).2, env.cache)

/-- catalog.js maps `catalogType` to the reference table's media-type
vocabulary: `series ↦ tv`, everything else `↦ movie`. -/
def mediaTypeOf (type : String) : String :=
  if type == "series" then "tv" else "movie"

/-- catalog.js `getGenreName(genreId, type, language)`: a `genres` table query
keyed by (genre id, media type, language); the row's name or `null`, and a
query error is propagated to the caller. -/
def getGenreName (env : Env) (genreId : Int) (type language : String) :
    Except String (Option String) :=
  env.genreName genreId (mediaTypeOf type) language

/-- Modelled from the spec: `getFanartPoster` of the missing `api/fanart`
module — the logo service returns a URL or null, and per spec §6/§7 a
logo-service failure degrades to null rather than rejecting. -/
def getFanartPoster (env : Env) (id : Int) (language key : String) : Option String :=
  env.fanart id language key

/-- Modelled from the spec: the `makeRequest` call of the missing `api/tmdb`
module fetching `/external_ids`; it yields the item's IMDB id (possibly null)
or rejects with a network error. -/
def fetchExternalImdbId (env : Env) (catalogType : String) (id : Int)
    (tmdbApiKey : String) : Except String (Option String) :=
  env.externalIds (if catalogType == "series" then "tv" else "movie") id

/-- JS `Promise.all` over a list of fallible lookups: succeeds with the list
of all results in input order, rejects if any lookup rejects. -/
def promiseAll {α β : Type} (f : α → Except String β) : List α → Except String (List β)
  | [] => Except.ok []
  | a :: as =>
    match f a with
    | Except.error e => Except.error e
    | Except.ok b =>
      match promiseAll f as with
      | Except.error e => Except.error e
      | Except.ok bs => Except.ok (b :: bs)

/-- A Trakt action link of the output record. -/
structure MetaLink where
  name : String
  category : String
  url : String
deriving DecidableEq

/-- `behaviorHints` of the output record. -/
structure BehaviorHints where
  defaultVideoId : String
deriving DecidableEq

/-- A normalized metadata record as assembled by `buildMetas`. -/
structure Meta where
  id : String
  type : String
  name : Option String
  poster : Option String
  background : Option String
  logo : Option String
  description : String
  releaseInfo : String
  imdbRating : Option String
  genres : List String
  links : Option (List MetaLink)
  behaviorHints : BehaviorHints
deriving DecidableEq

/-- The per-item async closure of catalog.js `buildMetas` (lines 139-202):
processing of one catalog item, producing a record or rejecting (the
rejection is what the surrounding `catch` turns into a dropped item). -/
def buildMetaItem (env : Env) (catalogType language : String)
    (rpdbApiKey fanartApiKey addWatchedTraktBtn hideTraktHistory traktUsername : Option String)
    (origin : String) (tmdbApiKey : Option String) (content : Content) :
    Except String Meta :=
  let posterUrl := (getPosterUrl env
    { id := content.id, poster_path := content.poster_path,
      vote_average := content.vote_average } catalogType language rpdbApiKey).1
  let logo := if jsTruthyStr fanartApiKey then
      getFanartPoster env content.id language (fanartApiKey.getD "")
    else none
  let imdbId := if jsTruthyStr tmdbApiKey then
      match fetchExternalImdbId env catalogType content.id (tmdbApiKey.getD "") with
      | Except.ok x => x
      | Except.error _ => none
    else none
  let releaseDate := if catalogType == "movies" then content.release_date
    else content.first_air_date
  let releaseInfo := if jsTruthyStr releaseDate then firstSegment (releaseDate.getD "") else ""
  let links : List MetaLink :=
    if jsTruthyStr addWatchedTraktBtn ∧ hideTraktHistory = some "true" ∧
        jsTruthyStr traktUsername then
      [{ name := addWatchedTraktBtn.getD "", category := "Trakt",
         url := origin ++ "/updateWatched/" ++ traktUsername.getD "" ++ "/" ++
           catalogType ++ "/" ++ toString content.id }]
    else []
  let metaId := if jsTruthyStr imdbId then imdbId.getD "" else "tmdb:" ++ toString content.id
  let genresE : Except String (List String) :=
    match content.genre_ids with
    | some ids =>
      Except.map (fun names => names.filterMap jsFilterBoolean)
        (promiseAll (fun genreId => getGenreName env genreId catalogType language) ids)
    | none => Except.ok []
  match genresE with
  | Except.error e => Except.error e
  | Except.ok genres =>
    Except.ok {
      id := metaId,
      type := if catalogType == "movies" then "movie" else "series",
      name := if catalogType == "movies" then content.title else content.name,
      poster := posterUrl,
      background := if jsTruthyStr content.backdrop_path then
          some ("https://image.tmdb.org/t/p/w1280" ++ content.backdrop_path.getD "")
        else none,
      logo := if jsTruthyStr logo then logo else none,
      description := content.overview,
      releaseInfo := releaseInfo,
      imdbRating := jsImdbRating content.vote_average,
      genres := genres,
      links := if links.length > 0 then some links else none,
      behaviorHints := { defaultVideoId := metaId } }

/-- catalog.js `buildMetas(filteredResults, catalogType, language, ...)`:
every item is processed by the per-item closure whose `catch` returns `null`,
and the `null`s are filtered out of the resulting batch. -/
def buildMetas (env : Env) (filteredResults : List Content) (catalogType language : String)
    (rpdbApiKey fanartApiKey addWatchedTraktBtn hideTraktHistory traktUsername : Option String)
    (origin : String) (tmdbApiKey : Option String) : List Meta :=
  (filteredResults.map (fun content =>
    buildMetaItem env catalogType language rpdbApiKey fanartApiKey addWatchedTraktBtn
      hideTraktHistory traktUsername origin tmdbApiKey content)).filterMap Except.toOption

/-! ### Concrete environments and items for evaluations -/

/-- A demo environment: empty caches, probe succeeds, cloud store misses,
render service succeeds, logo service and external-id lookups return null,
every genres query resolves to a name. -/
def envDemo : Env where
  cache := fun _ => none
  headStatus := fun _ => Except.ok 200
  cloudGet := fun _ => Except.ok none
  renderPost := fun _ _ contentId =>
    Except.ok { success := true, url := some ("https://cloud.example/" ++ contentId) }
  fanart := fun _ _ _ => none
  externalIds := fun _ _ => Except.ok none
  genreName := fun g _ _ => Except.ok (some ("G" ++ toString g))

/-- An environment where every network call fails and caches/stores are empty. -/
def envAllFail : Env where
  cache := fun _ => none
  headStatus := fun _ => Except.error "network error"
  cloudGet := fun _ => Except.ok none
  renderPost := fun _ _ _ => Except.error "network error"
  fanart := fun _ _ _ => none
  externalIds := fun _ _ => Except.error "network error"
  genreName := fun _ _ _ => Except.ok none

/-- An environment whose genres table query rejects for genre id 2 and
resolves to a name for every other id. -/
def envGenreReject : Env where
  cache := fun _ => none
  headStatus := fun _ => Except.ok 404
  cloudGet := fun _ => Except.ok none
  renderPost := fun _ _ _ => Except.error "network error"
  fanart := fun _ _ _ => none
  externalIds := fun _ _ => Except.ok none
  genreName := fun g _ _ =>
    if g = 2 then Except.error "db down" else Except.ok (some ("G" ++ toString g))

/-- An environment with a cloud-store hit at every key and a failing probe. -/
def envCloudHit : Env where
  cache := fun _ => none
  headStatus := fun _ => Except.ok 404
  cloudGet := fun _ => Except.ok (some "https://cloud.example/hit.jpg")
  renderPost := fun _ _ _ => Except.error "network error"
  fanart := fun _ _ _ => none
  externalIds := fun _ _ => Except.ok none
  genreName := fun _ _ _ => Except.ok none

/-- An item with no poster path. -/
def itemNoPoster : Content := { id := 1 }

/-- An item with a poster path and no vote average. -/
def itemNoVote : Content := { id := 42, poster_path := some "/p.jpg" }

/-- An item with a poster path and vote average 5. -/
def itemVote5 : Content := { id := 603, poster_path := some "/x.jpg", vote_average := some 5 }

/-- An item with a poster path and vote average exactly 0. -/
def itemVote0 : Content := { id := 9, poster_path := some "/z.jpg", vote_average := some 0 }

/-- An item with genre ids `[1, 2, 3]`. -/
def itemGenres123 : Content := { id := 7, genre_ids := some [1, 2, 3] }

/-- A minimal item with id 3. -/
def itemPlain3 : Content := { id := 3 }

/-- An environment whose genres table query resolves to no row for genre id 2
and to a name for every other id. -/
def envGenre2Null : Env :=
  { envDemo with genreName := fun g _ _ =>
      if g = 2 then Except.ok none else Except.ok (some ("G" ++ toString g)) }

/-- The record produced for `itemNoPoster` with an all-defaults context. -/
def metaOfItem1 : Meta :=
  { id := "tmdb:1", type := "movie", name := none, poster := none, background := none,
    logo := none, description := "", releaseInfo := "", imdbRating := none, genres := [],
    links := none, behaviorHints := { defaultVideoId := "tmdb:1" } }

/-- The record produced for `itemPlain3` with an all-defaults context. -/
def metaOfItem3 : Meta :=
  { id := "tmdb:3", type := "movie", name := none, poster := none, background := none,
    logo := none, description := "", releaseInfo := "", imdbRating := none, genres := [],
    links := none, behaviorHints := { defaultVideoId := "tmdb:3" } }

/-! ### Helper lemmas -/

theorem jsTruthyStr_isSome {o : Option String} (h : jsTruthyStr o = true) :
    ∃ s, o = some s ∧ s ≠ "" := by
  cases o with
  | none => simp [jsTruthyStr] at h
  | some s => exact ⟨s, rfl, by simpa [jsTruthyStr] using h⟩

theorem posterFallback_ne_none (env : Env) (content : Content) :
    (posterFallback env content).1 ≠ none := by
  unfold posterFallback
  split
  · simp
  · split
    · next hc =>
      obtain ⟨s, rfl, -⟩ := jsTruthyStr_isSome hc
      simp
    · split
      · simp
      · split
        · next hr =>
          have hu : jsTruthyStr _ = true := (Bool.and_eq_true _ _).mp hr |>.2
          obtain ⟨s, hs, -⟩ := jsTruthyStr_isSome hu
          simp [hs]
        · simp

theorem posterFallback_cloud_hit (env : Env) (content : Content) (u : String) (hu : u ≠ "")
    (hcloud : env.cloudGet (cloudContentId content) = Except.ok (some u)) :
    posterFallback env content = (some u, [Effect.cloudGet (cloudContentId content)]) := by
  unfold posterFallback
  rw [hcloud]
  simp [jsTruthyStr, hu]

theorem posterFallback_render_fail (env : Env) (content : Content)
    (hcloud : env.cloudGet (cloudContentId content) = Except.ok none)
    (hrender : ∀ r, env.renderPost (tmdbFallbackUrl content)
        (formatRating content.vote_average) (cloudContentId content) = Except.ok r →
        (r.success && jsTruthyStr r.url) = false) :
    (posterFallback env content).1 = some (tmdbFallbackUrl content) := by
  unfold posterFallback
  split
  · next heq =>
    rw [hcloud] at heq
  · next cloudUrl heq =>
    rw [hcloud] at heq
    injection heq with h
    subst h
    rw [if_neg (by decide : ¬(jsTruthyStr (none : Option String) = true))]
    split
    · simp
    · next r heq2 =>
      rw [hrender r heq2]
      simp

theorem posterFallback_head_effect (env : Env) (content : Content) :
    (posterFallback env content).2.head? =
      some (Effect.cloudGet (cloudContentId content)) := by
  unfold posterFallback
  split
  · simp
  · split
    · simp
    · split
      · simp
      · split <;> simp

theorem posterFallback_no_render_of_cloud_hit (env : Env) (content : Content) (u : String)
    (hu : u ≠ "")
    (hcloud : env.cloudGet (cloudContentId content) = Except.ok (some u)) :
    (posterFallback env content).2.filter Effect.isRenderPost = [] := by
  rw [posterFallback_cloud_hit env content u hu hcloud]
  simp [Effect.isRenderPost]

theorem getPosterUrl_no_rpdb (env : Env) (content : Content)
    (catalogType language : String) (rpdbApiKey : Option String)
    (hp : jsTruthyStr content.poster_path = true)
    (hk : jsTruthyStr rpdbApiKey = false) :
    getPosterUrl env content catalogType language rpdbApiKey =
      ((posterFallback env content).1, (posterFallback env content).2, env.cache) := by
  unfold getPosterUrl
  simp [hp, hk]

theorem getPosterUrl_cache_hit (env : Env) (content : Content)
    (catalogType language : String) (rpdbApiKey : Option String) (u : String)
    (hp : jsTruthyStr content.poster_path = true)
    (hk : jsTruthyStr rpdbApiKey = true)
    (hcache : env.cache (posterCacheId content) = some u) :
    getPosterUrl env content catalogType language rpdbApiKey =
      (some u, [Effect.cacheGet (posterCacheId content)], env.cache) := by
  unfold getPosterUrl
  rw [hcache]
  simp [hp, hk]

theorem getPosterUrl_probe_success (env : Env) (content : Content)
    (catalogType language : String) (rpdbApiKey : Option String)
    (hp : jsTruthyStr content.poster_path = true)
    (hk : jsTruthyStr rpdbApiKey = true)
    (hmiss : env.cache (posterCacheId content) = none)
    (hprobe : env.headStatus
      (getRpdbPoster catalogType content.id language (rpdbApiKey.getD "")) = Except.ok 200) :
    getPosterUrl env content catalogType language rpdbApiKey =
      (some (getRpdbPoster catalogType content.id language (rpdbApiKey.getD "")),
        [Effect.cacheGet (posterCacheId content),
          Effect.headProbe (getRpdbPoster catalogType content.id language (rpdbApiKey.getD "")),
          Effect.cacheSet (posterCacheId content)
            (getRpdbPoster catalogType content.id language (rpdbApiKey.getD ""))],
        fun k => if k = posterCacheId content then
          some (getRpdbPoster catalogType content.id language (rpdbApiKey.getD ""))
        else env.cache k) := by
  unfold getPosterUrl
  rw [hmiss, hprobe]
  simp [hp, hk]

theorem getPosterUrl_probe_fail (env : Env) (content : Content)
    (catalogType language : String) (rpdbApiKey : Option String)
    (hp : jsTruthyStr content.poster_path = true)
    (hk : jsTruthyStr rpdbApiKey = true)
    (hmiss : env.cache (posterCacheId content) = none)
    (hprobe : env.headStatus
      (getRpdbPoster catalogType content.id language (rpdbApiKey.getD "")) ≠ Except.ok 200) :
    getPosterUrl env content catalogType language rpdbApiKey =
      ((posterFallback env content).1,
        [Effect.cacheGet (posterCacheId content),
          Effect.headProbe (getRpdbPoster catalogType content.id language (rpdbApiKey.getD ""))] ++
          (posterFallback env content).2,
        env.cache) := by
  unfold getPosterUrl
  rw [hmiss]
  rw [if_neg (by simp [hp] : ¬(jsTruthyStr content.poster_path = false))]
  rw [if_pos hk]
  split
  · next cached h => cases h
  · split
    · next h => exact absurd h hprobe
    · rfl

theorem promiseAll_map_ok {α β : Type} (f : α → Except String β) (g : α → β) (l : List α)
    (h : ∀ a ∈ l, f a = Except.ok (g a)) :
    promiseAll f l = Except.ok (l.map g) := by
  induction l with
  | nil => rfl
  | cons a as ih =>
    unfold promiseAll
    rw [h a (List.mem_cons_self a as),
      ih (fun b hb => h b (List.mem_cons_of_mem a hb))]
    simp

/-! ### Claim theorems -/

/-- C4: the constructed paid-service URL omits the language query parameter
exactly when the key's first dash-delimited segment is `t0` or `t1`, and
otherwise appends `&lang=` followed by only the primary subtag of the
language tag. -/
theorem rpdb_url_language_tiering (type : String) (id : Int) (language rpdbkey : String) :
    (firstSegment rpdbkey = "t0" ∨ firstSegment rpdbkey = "t1" →
      getRpdbPoster type id language rpdbkey = rpdbPosterBase type id rpdbkey) ∧
    (¬(firstSegment rpdbkey = "t0" ∨ firstSegment rpdbkey = "t1") →
      getRpdbPoster type id language rpdbkey =
        rpdbPosterBase type id rpdbkey ++ "&lang=" ++ firstSegment language) := by
  constructor
  · intro h
    rcases h with h | h <;> simp [getRpdbPoster, h]
  · intro h
    push_neg at h
    simp [getRpdbPoster, h.1, h.2]

/-- C4 witness: the `t2-abc` key with language `en-US` appends `&lang=` with
the primary subtag `en` only. -/
theorem rpdb_url_language_tiering_witness :
    getRpdbPoster "movies" 603 "en-US" "t2-abc" =
      rpdbPosterBase "movies" 603 "t2-abc" ++ "&lang=" ++ firstSegment "en-US" :=
  (rpdb_url_language_tiering "movies" 603 "en-US" "t2-abc").2 (by decide)

/-- C3: for an item without a poster path, `getPosterUrl` returns null,
performs no cache reads, no cache writes and no network calls (empty effect
trace), and leaves the cache unchanged. -/
theorem no_poster_null_no_effects (env : Env) (content : Content)
    (catalogType language : String) (rpdbApiKey : Option String)
    (h : content.poster_path = none) :
    getPosterUrl env content catalogType language rpdbApiKey = (none, [], env.cache) := by
  unfold getPosterUrl
  simp [jsTruthyStr, h]

/-- C3 witness: the item with no poster path. -/
theorem no_poster_null_no_effects_witness :
    getPosterUrl envDemo itemNoPoster "movies" "en-US" none = (none, [], envDemo.cache) :=
  no_poster_null_no_effects envDemo itemNoPoster "movies" "en-US" none rfl

/-- C2: with a poster path present, `getPosterUrl` never returns null; and
when the cache misses, the probe never succeeds, the cloud store misses and
the render-creation call does not succeed, the result is exactly the raw
fallback URL `https://image.tmdb.org/t/p/w500` concatenated with the item's
poster path. -/
theorem raw_fallback_terminal (env : Env) (content : Content)
    (catalogType language : String) (rpdbApiKey : Option String)
    (hp : jsTruthyStr content.poster_path = true) :
    (getPosterUrl env content catalogType language rpdbApiKey).1 ≠ none ∧
    (env.cache (posterCacheId content) = none →
     env.headStatus (getRpdbPoster catalogType content.id language (rpdbApiKey.getD "")) ≠
       Except.ok 200 →
     env.cloudGet (cloudContentId content) = Except.ok none →
     (∀ r, env.renderPost (tmdbFallbackUrl content) (formatRating content.vote_average)
        (cloudContentId content) = Except.ok r → (r.success && jsTruthyStr r.url) = false) →
     (getPosterUrl env content catalogType language rpdbApiKey).1 =
       some (tmdbFallbackUrl content)) := by
  constructor
  · by_cases hk : jsTruthyStr rpdbApiKey = true
    · cases hc : env.cache (posterCacheId content) with
      | some u =>
        rw [getPosterUrl_cache_hit env content catalogType language rpdbApiKey u hp hk hc]
        simp
      | none =>
        by_cases hh : env.headStatus
            (getRpdbPoster catalogType content.id language (rpdbApiKey.getD "")) =
            Except.ok 200
        · rw [getPosterUrl_probe_success env content catalogType language rpdbApiKey hp hk hc hh]
          simp
        · rw [getPosterUrl_probe_fail env content catalogType language rpdbApiKey hp hk hc hh]
          exact posterFallback_ne_none env content
    · rw [getPosterUrl_no_rpdb env content catalogType language rpdbApiKey hp
        (Bool.not_eq_true _ ▸ hk)]
      exact posterFallback_ne_none env content
  · intro hmiss hprobe hcloud hrender
    by_cases hk : jsTruthyStr rpdbApiKey = true
    · rw [getPosterUrl_probe_fail env content catalogType language rpdbApiKey hp hk hmiss hprobe]
      exact posterFallback_render_fail env content hcloud hrender
    · rw [getPosterUrl_no_rpdb env content catalogType language rpdbApiKey hp
        (Bool.not_eq_true _ ▸ hk)]
      exact posterFallback_render_fail env content hcloud hrender

/-- C2 witness: all tiers fail for the item with poster path `/x.jpg`, and
the result is the raw fallback URL. -/
theorem raw_fallback_terminal_witness :
    (getPosterUrl envAllFail itemVote5 "movies" "en-US" (some "t1-k")).1 ≠ none ∧
    (getPosterUrl envAllFail itemVote5 "movies" "en-US" (some "t1-k")).1 =
      some (tmdbFallbackUrl itemVote5) := by
  have h := raw_fallback_terminal envAllFail itemVote5 "movies" "en-US" (some "t1-k") (by decide)
  exact ⟨h.1, h.2 rfl (fun hcon => Except.noConfusion hcon) rfl
    (fun r hcon => Except.noConfusion hcon)⟩

/-- C9: for an item reaching the cloud tier (poster path present and the
paid-service tier not returning), a cloud-store hit makes `getPosterUrl`
return the stored URL, and the render-creation call is never invoked. -/
theorem cloud_hit_no_render (env : Env) (content : Content)
    (catalogType language : String) (rpdbApiKey : Option String) (u : String)
    (hp : jsTruthyStr content.poster_path = true)
    (hu : u ≠ "")
    (hcloud : env.cloudGet (cloudContentId content) = Except.ok (some u))
    (hskip : jsTruthyStr rpdbApiKey = false ∨
      (env.cache (posterCacheId content) = none ∧
       env.headStatus (getRpdbPoster catalogType content.id language (rpdbApiKey.getD "")) ≠
         Except.ok 200)) :
    (getPosterUrl env content catalogType language rpdbApiKey).1 = some u ∧
    ((getPosterUrl env content catalogType language rpdbApiKey).2.1).filter
      Effect.isRenderPost = [] := by
  have hfb := posterFallback_cloud_hit env content u hu hcloud
  rcases hskip with hk | ⟨hmiss, hprobe⟩
  · rw [getPosterUrl_no_rpdb env content catalogType language rpdbApiKey hp hk, hfb]
    simp [Effect.isRenderPost]
  · by_cases hk : jsTruthyStr rpdbApiKey = true
    · rw [getPosterUrl_probe_fail env content catalogType language rpdbApiKey hp hk hmiss hprobe,
        hfb]
      simp [Effect.isRenderPost]
    · rw [getPosterUrl_no_rpdb env content catalogType language rpdbApiKey hp
        (Bool.not_eq_true _ ▸ hk), hfb]
      simp [Effect.isRenderPost]

/-- C9 witness: a cloud-store hit with no paid-service key returns the stored
URL with no render call in the trace. -/
theorem cloud_hit_no_render_witness :
    (getPosterUrl envCloudHit itemVote5 "movies" "en-US" none).1 =
      some "https://cloud.example/hit.jpg" ∧
    ((getPosterUrl envCloudHit itemVote5 "movies" "en-US" none).2.1).filter
      Effect.isRenderPost = [] :=
  cloud_hit_no_render envCloudHit itemVote5 "movies" "en-US" none
    "https://cloud.example/hit.jpg" (by decide) (by decide) rfl (Or.inl rfl)

/-- C8: with the paid-service key configured, a first resolution that misses
the cache and probes successfully warms the cache; resolving again with the
warmed cache returns the identical URL and performs only the cache read —
no second existence probe, the cached value is returned unconditionally. -/
theorem warmed_cache_idempotent (env : Env) (content : Content)
    (catalogType language : String) (rpdbApiKey : Option String)
    (hp : jsTruthyStr content.poster_path = true)
    (hk : jsTruthyStr rpdbApiKey = true)
    (hmiss : env.cache (posterCacheId content) = none)
    (hprobe : env.headStatus
      (getRpdbPoster catalogType content.id language (rpdbApiKey.getD "")) = Except.ok 200) :
    (getPosterUrl env content catalogType language rpdbApiKey).1 =
      some (getRpdbPoster catalogType content.id language (rpdbApiKey.getD "")) ∧
    (getPosterUrl { env with cache := (getPosterUrl env content catalogType language
        rpdbApiKey).2.2 } content catalogType language rpdbApiKey).1 =
      (getPosterUrl env content catalogType language rpdbApiKey).1 ∧
    (getPosterUrl { env with cache := (getPosterUrl env content catalogType language
        rpdbApiKey).2.2 } content catalogType language rpdbApiKey).2.1 =
      [Effect.cacheGet (posterCacheId content)] := by
  have h1 := getPosterUrl_probe_success env content catalogType language rpdbApiKey hp hk hmiss hprobe
  have h2 := getPosterUrl_cache_hit
    { env with cache := (getPosterUrl env content catalogType language rpdbApiKey).2.2 }
    content catalogType language rpdbApiKey
    (getRpdbPoster catalogType content.id language (rpdbApiKey.getD "")) hp hk
    (by rw [h1]; simp)
  rw [h1] at h2 ⊢
  rw [h2]
  simp

/-- C8 witness: the demo environment with an empty cache and a succeeding
probe. -/
theorem warmed_cache_idempotent_witness :
    (getPosterUrl envDemo itemVote5 "movies" "en-US" (some "t1-k")).1 =
      some (getRpdbPoster "movies" itemVote5.id "en-US" ((some "t1-k").getD "")) ∧
    (getPosterUrl { envDemo with cache := (getPosterUrl envDemo itemVote5 "movies" "en-US"
        (some "t1-k")).2.2 } itemVote5 "movies" "en-US" (some "t1-k")).1 =
      (getPosterUrl envDemo itemVote5 "movies" "en-US" (some "t1-k")).1 ∧
    (getPosterUrl { envDemo with cache := (getPosterUrl envDemo itemVote5 "movies" "en-US"
        (some "t1-k")).2.2 } itemVote5 "movies" "en-US" (some "t1-k")).2.1 =
      [Effect.cacheGet (posterCacheId itemVote5)] :=
  warmed_cache_idempotent envDemo itemVote5 "movies" "en-US" (some "t1-k")
    (by decide) (by decide) rfl rfl

theorem buildMetaItem_imdbRating_no_genres (env : Env) (catalogType language : String)
    (rpdbApiKey fanartApiKey addWatchedTraktBtn hideTraktHistory traktUsername : Option String)
    (origin : String) (tmdbApiKey : Option String) (content : Content)
    (hg : content.genre_ids = none) :
    Except.map Meta.imdbRating (buildMetaItem env catalogType language rpdbApiKey fanartApiKey
      addWatchedTraktBtn hideTraktHistory traktUsername origin tmdbApiKey content) =
      Except.ok (jsImdbRating content.vote_average) := by
  unfold buildMetaItem
  rw [hg]
  simp [Except.map]

/-- C10: an item whose vote average is exactly 0 is treated as not rated:
the cloud poster key uses the `NR` marker and the assembled record's rating
field is null. -/
theorem zero_vote_not_rated (env : Env) (content : Content)
    (catalogType language : String)
    (rpdbApiKey fanartApiKey addWatchedTraktBtn hideTraktHistory traktUsername : Option String)
    (origin : String) (tmdbApiKey : Option String)
    (hv : content.vote_average = some 0)
    (hp : jsTruthyStr content.poster_path = true)
    (hk : jsTruthyStr rpdbApiKey = false)
    (hg : content.genre_ids = none) :
    (getPosterUrl env content catalogType language rpdbApiKey).2.1.head? =
      some (Effect.cloudGet (toString content.id ++ "-" ++ "NR")) ∧
    Except.map Meta.imdbRating (buildMetaItem env catalogType language rpdbApiKey fanartApiKey
      addWatchedTraktBtn hideTraktHistory traktUsername origin tmdbApiKey content) =
      Except.ok none := by
  constructor
  · rw [getPosterUrl_no_rpdb env content catalogType language rpdbApiKey hp hk]
    rw [posterFallback_head_effect env content]
    simp [cloudContentId, formatRating, hv]
  · rw [buildMetaItem_imdbRating_no_genres env catalogType language rpdbApiKey fanartApiKey
      addWatchedTraktBtn hideTraktHistory traktUsername origin tmdbApiKey content hg]
    simp [jsImdbRating, hv]

/-- C10 witness: the item with vote average 0 and poster path `/z.jpg`. -/
theorem zero_vote_not_rated_witness :
    (getPosterUrl envDemo itemVote0 "movies" "en-US" none).2.1.head? =
      some (Effect.cloudGet (toString itemVote0.id ++ "-" ++ "NR")) ∧
    Except.map Meta.imdbRating (buildMetaItem envDemo "movies" "en-US" none none none none
      none "http://o" none itemVote0) = Except.ok none :=
  zero_vote_not_rated envDemo itemVote0 "movies" "en-US" none none none none none
    "http://o" none rfl (by decide) rfl rfl

/-- C1 (amended): a present nonzero vote average is formatted to one decimal
place in the cloud poster key and in the record's rating field (`7.666`
formats to `"7.7"`); an absent vote average yields the `NR` marker in the
cloud poster key while the record's rating field is null. -/
theorem rating_formatting_amended (env : Env) (content : Content)
    (catalogType language : String)
    (rpdbApiKey fanartApiKey addWatchedTraktBtn hideTraktHistory traktUsername : Option String)
    (origin : String) (tmdbApiKey : Option String)
    (hp : jsTruthyStr content.poster_path = true)
    (hk : jsTruthyStr rpdbApiKey = false)
    (hg : content.genre_ids = none) :
    (∀ v : ℚ, content.vote_average = some v → v ≠ 0 →
      (getPosterUrl env content catalogType language rpdbApiKey).2.1.head? =
        some (Effect.cloudGet (toString content.id ++ "-" ++ jsToFixed1 v)) ∧
      Except.map Meta.imdbRating (buildMetaItem env catalogType language rpdbApiKey
        fanartApiKey addWatchedTraktBtn hideTraktHistory traktUsername origin tmdbApiKey
        content) = Except.ok (some (jsToFixed1 v))) ∧
    (content.vote_average = none →
      (getPosterUrl env content catalogType language rpdbApiKey).2.1.head? =
        some (Effect.cloudGet (toString content.id ++ "-" ++ "NR")) ∧
      Except.map Meta.imdbRating (buildMetaItem env catalogType language rpdbApiKey
        fanartApiKey addWatchedTraktBtn hideTraktHistory traktUsername origin tmdbApiKey
        content) = Except.ok none) ∧
    jsToFixed1 (7.666 : ℚ) = "7.7" := by
  have hhead : (getPosterUrl env content catalogType language rpdbApiKey).2.1.head? =
      some (Effect.cloudGet (cloudContentId content)) := by
    rw [getPosterUrl_no_rpdb env content catalogType language rpdbApiKey hp hk]
    exact posterFallback_head_effect env content
  have hitem := buildMetaItem_imdbRating_no_genres env catalogType language rpdbApiKey
    fanartApiKey addWatchedTraktBtn hideTraktHistory traktUsername origin tmdbApiKey content hg
  refine ⟨fun v hv hv0 => ⟨?_, ?_⟩, fun hv => ⟨?_, ?_⟩, ?_⟩
  · rw [hhead]
    simp [cloudContentId, formatRating, hv, hv0]
  · rw [hitem]
    simp [jsImdbRating, hv, hv0]
  · rw [hhead]
    simp [cloudContentId, formatRating, hv]
  · rw [hitem]
    simp [jsImdbRating, hv]
  · have h77 : ⌊(7.666 : ℚ) * 10 + 1 / 2⌋ = 77 := by norm_num
    unfold jsToFixed1
    rw [h77]
    decide

/-- C1 (amended) witness: vote average 5 yields `"5.0"` in the cloud key and
rating field. -/
theorem rating_formatting_amended_witness :
    (getPosterUrl envDemo itemVote5 "movies" "en-US" none).2.1.head? =
      some (Effect.cloudGet (toString itemVote5.id ++ "-" ++ jsToFixed1 5)) ∧
    Except.map Meta.imdbRating (buildMetaItem envDemo "movies" "en-US" none none none none
      none "http://o" none itemVote5) = Except.ok (some (jsToFixed1 5)) :=
  (rating_formatting_amended envDemo itemVote5 "movies" "en-US" none none none none none
    "http://o" none (by decide) rfl rfl).1 5 rfl (by decide)

/-- C1 counterexample: for the item with an absent vote average the assembled
record's rating field is null, not the `"NR"` marker the claim requires. -/
theorem rating_marker_counterexample :
    (buildMetas envDemo [itemNoVote] "movies" "en-US" none none none none none
      "http://o" none).map Meta.imdbRating = [none] ∧
    (buildMetas envDemo [itemNoVote] "movies" "en-US" none none none none none
      "http://o" none).map Meta.imdbRating ≠ [some "NR"] := by
  constructor
  · decide
  · decide

/-- C5: with a logo-service key configured and the logo fetch yielding no
logo, the item's record is still produced — the batch output for the single
item has exactly one record and its logo field is null. -/
theorem logo_failure_nonfatal (env : Env) (content : Content)
    (catalogType language : String)
    (rpdbApiKey fanartApiKey addWatchedTraktBtn hideTraktHistory traktUsername : Option String)
    (origin : String) (tmdbApiKey : Option String) (names : Int → Option String)
    (hfan : jsTruthyStr fanartApiKey = true)
    (hlogo : env.fanart content.id language (fanartApiKey.getD "") = none)
    (hgen : ∀ g ∈ content.genre_ids.getD [],
      env.genreName g (mediaTypeOf catalogType) language = Except.ok (names g)) :
    (buildMetas env [content] catalogType language rpdbApiKey fanartApiKey addWatchedTraktBtn
      hideTraktHistory traktUsername origin tmdbApiKey).map Meta.logo = [none] := by
  unfold buildMetas
  simp only [List.map_cons, List.map_nil]
  unfold buildMetaItem
  rcases hgid : content.genre_ids with - | ids
  · simp [hgid, getFanartPoster, hfan, hlogo, Except.toOption, jsTruthyStr]
  · dsimp only
    rw [promiseAll_map_ok (fun genreId => getGenreName env genreId catalogType language)
      names ids (fun a ha => hgen a (by simpa [hgid] using ha))]
    simp [getFanartPoster, hfan, hlogo, Except.toOption, jsTruthyStr, Except.map]

/-- C5 witness: the demo environment's logo service yields no logo for the
item, and the record is produced with a null logo. -/
theorem logo_failure_nonfatal_witness :
    (buildMetas envDemo [itemVote5] "movies" "en-US" none (some "fanart-key") none
      none none "http://o" none).map Meta.logo = [none] :=
  logo_failure_nonfatal envDemo itemVote5 "movies" "en-US" none (some "fanart-key") none
    none none "http://o" none (fun g => some ("G" ++ toString g)) (by decide) rfl
    (fun g hg => rfl)

/-- C6 counterexample: for an item with genre ids `[1, 2, 3]` where the
lookup of id 2 rejects, the whole item is dropped from the batch output —
no record with a two-element genre list is produced. -/
theorem genre_reject_counterexample :
    buildMetas envGenreReject [itemGenres123] "movies" "en-US" none none none none none
      "http://o" none = [] ∧
    (buildMetas envGenreReject [itemGenres123] "movies" "en-US" none none none none none
      "http://o" none).map Meta.genres ≠ [["G1", "G3"]] := by
  constructor
  · decide
  · decide

/-- C6 (amended): a genre id whose lookup resolves to no name is omitted from
the record's genre list without affecting the other ids, and the resolved
names preserve the relative order of the input ids; (a lookup that rejects
instead drops the whole item, see the counterexample). -/
theorem genre_null_omitted_amended (env : Env) (content : Content)
    (catalogType language : String)
    (rpdbApiKey fanartApiKey addWatchedTraktBtn hideTraktHistory traktUsername : Option String)
    (origin : String) (tmdbApiKey : Option String)
    (ids : List Int) (names : Int → Option String)
    (hids : content.genre_ids = some ids)
    (hnames : ∀ g ∈ ids,
      env.genreName g (mediaTypeOf catalogType) language = Except.ok (names g)) :
    Except.map Meta.genres (buildMetaItem env catalogType language rpdbApiKey fanartApiKey
      addWatchedTraktBtn hideTraktHistory traktUsername origin tmdbApiKey content) =
      Except.ok (ids.filterMap (fun g => jsFilterBoolean (names g))) := by
  unfold buildMetaItem
  rw [hids]
  dsimp only
  rw [promiseAll_map_ok (fun genreId => getGenreName env genreId catalogType language)
    names ids (fun a ha => hnames a ha)]
  simp only [Except.map, List.filterMap_map]
  rfl

/-- C6 (amended) witness: ids `[1, 2, 3]` with id 2 resolving to no name
yield the genre list `["G1", "G3"]`. -/
theorem genre_null_omitted_amended_witness :
    Except.map Meta.genres (buildMetaItem envGenre2Null "movies" "en-US" none none none none
      none "http://o" none itemGenres123) = Except.ok ["G1", "G3"] := by
  have h := genre_null_omitted_amended envGenre2Null itemGenres123 "movies" "en-US" none none
    none none none "http://o" none [1, 2, 3]
    (fun g => if g = 2 then none else some ("G" ++ toString g)) rfl
    (by intro g hg; fin_cases hg <;> rfl)
  rw [h]
  rfl

/-- C7: if processing of one item in a batch of three rejects, that item is
dropped with no partial record, and the other two items each produce exactly
one record, in order. -/
theorem batch_item_error_dropped (env : Env) (catalogType language : String)
    (rpdbApiKey fanartApiKey addWatchedTraktBtn hideTraktHistory traktUsername : Option String)
    (origin : String) (tmdbApiKey : Option String)
    (a b c : Content) (e : String) (ma mc : Meta)
    (ha : buildMetaItem env catalogType language rpdbApiKey fanartApiKey addWatchedTraktBtn
      hideTraktHistory traktUsername origin tmdbApiKey a = Except.ok ma)
    (hb : buildMetaItem env catalogType language rpdbApiKey fanartApiKey addWatchedTraktBtn
      hideTraktHistory traktUsername origin tmdbApiKey b = Except.error e)
    (hc : buildMetaItem env catalogType language rpdbApiKey fanartApiKey addWatchedTraktBtn
      hideTraktHistory traktUsername origin tmdbApiKey c = Except.ok mc) :
    buildMetas env [a, b, c] catalogType language rpdbApiKey fanartApiKey addWatchedTraktBtn
      hideTraktHistory traktUsername origin tmdbApiKey = [ma, mc] := by
  unfold buildMetas
  simp [ha, hb, hc, Except.toOption]

/-- C7 witness: in a 3-item batch whose middle item's genre lookup rejects,
exactly the first and third items' records are produced. -/
theorem batch_item_error_dropped_witness :
    buildMetas envGenreReject [itemNoPoster, itemGenres123, itemPlain3] "movies" "en-US"
      none none none none none "http://o" none = [metaOfItem1, metaOfItem3] :=
  batch_item_error_dropped envGenreReject "movies" "en-US" none none none none none
    "http://o" none itemNoPoster itemGenres123 itemPlain3 "db down" metaOfItem1 metaOfItem3
    rfl rfl rfl

end Catalog
